import Mathlib

/-!
Shallow embedding of the offline caching subsystem of the flashcard
application (source file `src/lib/offlineCache.ts`), together with proofs
of the specified properties.

The module keeps three pieces of process-wide mutable state: the durable
key-value store with a `cards` space and an `audio` space (IndexedDB via
the `idb` wrapper), the in-memory map from card identity to playable
object URL, and the set of status listeners.  We model the durable spaces
and the URL map as association lists inside an explicit `ModuleState`,
thread the state through every operation, and record emitted status
events and revoked object URLs explicitly.  Host effects are
parameterised: the audio fetch becomes a function argument, the current
time a `Nat` argument, and `URL.createObjectURL` a deterministic fresh
handle drawn from a counter in the state (the host guarantees freshness;
object URLs are never the empty string).  The browser capability check
(`typeof window !== 'undefined'`) becomes a boolean argument `isBrowser`.
-/

namespace OfflineCache

/-- `Flashcard` row, from `src/lib/types.ts`. -/
structure Flashcard where
  id : String
  polish : String
  hanzi : String
  pinyin : String
  audio_url : Option String
  comment : Option String
  is_mastered : Bool
  created_at : String
  hsk_reference_id : Option String
deriving DecidableEq

/-- Binary payload with a MIME type, as produced by `response.blob()`. -/
structure Blob where
  bytes : List Nat
  type : String
deriving DecidableEq

/-- Outcome of `fetch(url)` followed by the `response.ok` check and
`response.blob()`: either a blob, or a failure (network error, non-success
HTTP status, or body decoding error -- all of them surface as a thrown
exception caught by the `try/catch` in `cacheCardOffline`). -/
inductive FetchOutcome where
  | success (blob : Blob)
  | failure (message : String)
deriving DecidableEq

/-- Value type of the `cards` object store (`FlashcardOfflineSchema`). -/
structure CardRecord where
  card : Flashcard
  cachedAt : Nat
  audioStored : Bool
deriving DecidableEq

/-- Value type of the `audio` object store (`FlashcardOfflineSchema`). -/
structure AudioRecord where
  cardId : String
  blob : Blob
  cachedAt : Nat
  type : Option String
deriving DecidableEq

/-- The `OfflineStatusDetail` payload carried by status events. -/
structure OfflineStatusDetail where
  cardId : String
  cached : Bool
  audioStored : Bool
deriving DecidableEq

/-- JavaScript truthiness of a `string | null` value: `null` and the empty
string are falsy. -/
def truthyStr : Option String → Bool
  | none => false
  | some s => s ≠ ""

/-- Lookup by key in an association list (`store.get(key)` /
`Map.get(key)`): first binding wins. -/
def kvGet {α : Type} (l : List (String × α)) (k : String) : Option α :=
  (l.find? (fun p => p.1 = k)).map (fun p => p.2)

/-- Insert-or-replace by key (`store.put(value, key)` / `Map.set`). -/
def kvPut {α : Type} (l : List (String × α)) (k : String) (v : α) :
    List (String × α) :=
  l.filter (fun p => p.1 ≠ k) ++ [(k, v)]

/-- Delete by key (`store.delete(key)` / `Map.delete`); missing keys are
not an error. -/
def kvDelete {α : Type} (l : List (String × α)) (k : String) :
    List (String × α) :=
  l.filter (fun p => p.1 ≠ k)

/-- The process-wide mutable state of the module: the two durable record
spaces, the in-memory object-URL map `audioObjectUrls`, the log of object
URLs released via `URL.revokeObjectURL`, and the fresh-handle counter
standing in for `URL.createObjectURL`. -/
structure ModuleState where
  cards : List (String × CardRecord)
  audio : List (String × AudioRecord)
  audioObjectUrls : List (String × String)
  revokedUrls : List String
  nextUrlId : Nat
deriving DecidableEq

/-- The deterministic stand-in for `URL.createObjectURL`: handle number
`n` becomes a non-empty object URL string. -/
def mkObjectUrl (n : Nat) : String :=
  "blob:flashcards-offline/" ++ toString n

/-- `revokeAudioObjectUrl(cardId)`: if the map holds a truthy URL for the
identity, revoke it and drop the entry; otherwise do nothing. -/
def revokeAudioObjectUrl (cardId : String) (s : ModuleState) : ModuleState :=
  match kvGet s.audioObjectUrls cardId with
  | none => s
  | some existingUrl =>
      if existingUrl = "" then s
      else
        { s with
          revokedUrls := s.revokedUrls ++ [existingUrl]
          audioObjectUrls := kvDelete s.audioObjectUrls cardId }

/-- One observable step of a cache-manager operation, in program order:
the audio fetch, writes and deletes against the two durable spaces,
invalidation of the in-memory handle, status-event emission, and console
error logging. -/
inductive Action where
  | fetchAudio (url : String) (outcome : FetchOutcome)
  | putAudio (key : String) (record : AudioRecord)
  | deleteAudio (key : String)
  | putCard (key : String) (record : CardRecord)
  | deleteCard (key : String)
  | revokeHandle (cardId : String)
  | emitEvent (detail : OfflineStatusDetail)
  | logError (message : String)
deriving DecidableEq

/-- Effect of a single step on the module state. -/
def applyAction (s : ModuleState) : Action → ModuleState
  | Action.fetchAudio _ _ => s
  | Action.putAudio k r => { s with audio := kvPut s.audio k r }
  | Action.deleteAudio k => { s with audio := kvDelete s.audio k }
  | Action.putCard k r => { s with cards := kvPut s.cards k r }
  | Action.deleteCard k => { s with cards := kvDelete s.cards k }
  | Action.revokeHandle cardId => revokeAudioObjectUrl cardId s
  | Action.emitEvent _ => s
  | Action.logError _ => s

/-- Run a straight-line sequence of steps. -/
def runActions (steps : List Action) (s : ModuleState) : ModuleState :=
  steps.foldl applyAction s

/-- The status events emitted by a sequence of steps, in order. -/
def emittedOf (steps : List Action) : List OfflineStatusDetail :=
  steps.filterMap (fun a =>
    match a with
    | Action.emitEvent d => some d
    | _ => none)

/-- Steps of the audio phase of `cacheCardOffline`: the fetch, the
audio-space writes and deletes, and console logging -- everything that
happens before the card-record write. -/
def isAudioPhase : Action → Bool
  | Action.fetchAudio _ _ => true
  | Action.putAudio _ _ => true
  | Action.deleteAudio _ => true
  | Action.logError _ => true
  | _ => false

/-- The step sequence of one browser-side `cacheCardOffline(card)` call,
in source order: the audio phase first (fetch and store the blob on
success, log on failure, or delete any stored audio record when the card
has no truthy audio URL), then the card-record write, then invalidation
of the in-memory handle, then event emission. -/
def cacheCardSteps (fetchFn : String → FetchOutcome) (now : Nat)
    (card : Flashcard) : List Action :=
  if truthyStr card.audio_url then
    match fetchFn (card.audio_url.getD "") with
    | FetchOutcome.success blob =>
        [Action.fetchAudio (card.audio_url.getD "") (FetchOutcome.success blob),
         Action.putAudio card.id
           { cardId := card.id
             blob := blob
             cachedAt := now
             type := if blob.type = "" then none else some blob.type },
         Action.putCard card.id
           { card := card, cachedAt := now, audioStored := true },
         Action.revokeHandle card.id,
         Action.emitEvent
           { cardId := card.id, cached := true, audioStored := true }]
    | FetchOutcome.failure msg =>
        [Action.fetchAudio (card.audio_url.getD "") (FetchOutcome.failure msg),
         Action.logError "Failed to cache flashcard audio",
         Action.putCard card.id
           { card := card, cachedAt := now, audioStored := false },
         Action.revokeHandle card.id,
         Action.emitEvent
           { cardId := card.id, cached := true, audioStored := false }]
  else
    [Action.deleteAudio card.id,
     Action.putCard card.id
       { card := card, cachedAt := now, audioStored := false },
     Action.revokeHandle card.id,
     Action.emitEvent
       { cardId := card.id, cached := true, audioStored := false }]

/-- The `audioStored` flag computed by one `cacheCardOffline` call. -/
def cacheAudioStored (fetchFn : String → FetchOutcome)
    (card : Flashcard) : Bool :=
  truthyStr card.audio_url &&
    (match fetchFn (card.audio_url.getD "") with
     | FetchOutcome.success _ => true
     | FetchOutcome.failure _ => false)

/-- `cacheCardOffline(card)`: throws in a non-browser context; otherwise
runs the step sequence and returns the `CacheResult` triple.  The second
component of the success value is the list of status events the call
emitted. -/
def cacheCardOffline (isBrowser : Bool) (fetchFn : String → FetchOutcome)
    (now : Nat) (card : Flashcard) (s : ModuleState) :
    Except String (ModuleState × List OfflineStatusDetail × OfflineStatusDetail) :=
  if isBrowser then
    let steps := cacheCardSteps fetchFn now card
    Except.ok (runActions steps s, emittedOf steps,
      { cardId := card.id, cached := true,
        audioStored := cacheAudioStored fetchFn card })
  else
    Except.error "Caching offline is only available in the browser."

/-- The step sequence of one browser-side `removeCardFromOffline(cardId)`
call: delete both records, invalidate the handle, emit. -/
def removeSteps (cardId : String) : List Action :=
  [Action.deleteCard cardId,
   Action.deleteAudio cardId,
   Action.revokeHandle cardId,
   Action.emitEvent { cardId := cardId, cached := false, audioStored := false }]

/-- `removeCardFromOffline(cardId)`: a no-op returning no events outside
the browser; otherwise runs the deletion steps and reports the emitted
events. -/
def removeCardFromOffline (isBrowser : Bool) (cardId : String)
    (s : ModuleState) : ModuleState × List OfflineStatusDetail :=
  if isBrowser then
    (runActions (removeSteps cardId) s, emittedOf (removeSteps cardId))
  else
    (s, [])

/-- `getOfflineCard(cardId)`: `null` outside the browser, otherwise the
stored snapshot (`record?.card ?? null`). -/
def getOfflineCard (isBrowser : Bool) (cardId : String) (s : ModuleState) :
    Option Flashcard :=
  if isBrowser then (kvGet s.cards cardId).map (fun r => r.card)
  else none

/-- `getAllOfflineCards()`: every stored snapshot, `[]` outside the
browser. -/
def getAllOfflineCards (isBrowser : Bool) (s : ModuleState) :
    List Flashcard :=
  if isBrowser then s.cards.map (fun p => p.2.card)
  else []

/-- `isCardCached(cardId)`: `Boolean(record)`. -/
def isCardCached (isBrowser : Bool) (cardId : String) (s : ModuleState) :
    Bool :=
  if isBrowser then (kvGet s.cards cardId).isSome
  else false

/-- One assignment `acc[k] = v` on a JavaScript object literal: replace
in place when the key exists, append otherwise. -/
def recordSet (acc : List (String × Bool)) (k : String) (v : Bool) :
    List (String × Bool) :=
  if acc.any (fun p => p.1 = k) then
    acc.map (fun p => if p.1 = k then (k, v) else p)
  else acc ++ [(k, v)]

/-- `getOfflineStatusSnapshot()`: `{}` outside the browser, otherwise the
reduce over all card records keyed by `item.card.id`. -/
def getOfflineStatusSnapshot (isBrowser : Bool) (s : ModuleState) :
    List (String × Bool) :=
  if isBrowser then
    s.cards.foldl (fun acc p => recordSet acc p.2.card.id p.2.audioStored) []
  else []

/-- `getPlayableAudioUrl(cardId, fallbackRemoteUrl)`: fallback outside
the browser; an existing in-memory handle first; else a fresh object URL
derived from a stored audio record, cached in the map; else the
fallback.  Returns the new state together with the result. -/
def getPlayableAudioUrl (isBrowser : Bool) (cardId : String)
    (fallbackRemoteUrl : Option String) (s : ModuleState) :
    ModuleState × Option String :=
  if isBrowser then
    match kvGet s.audioObjectUrls cardId with
    | some u => (s, some u)
    | none =>
        match kvGet s.audio cardId with
        | some _ =>
            let objectUrl := mkObjectUrl s.nextUrlId
            ({ s with
                audioObjectUrls := kvPut s.audioObjectUrls cardId objectUrl
                nextUrlId := s.nextUrlId + 1 },
             some objectUrl)
        | none => (s, fallbackRemoteUrl)
  else (s, fallbackRemoteUrl)

/-- `clearOfflineCache()`: a no-op outside the browser; otherwise clears
both spaces and revokes every key of the in-memory map.  Emits no status
event, hence the constant empty event list. -/
def clearOfflineCache (isBrowser : Bool) (s : ModuleState) :
    ModuleState × List OfflineStatusDetail :=
  if isBrowser then
    let cleared := { s with cards := ([] : List (String × CardRecord)),
                            audio := ([] : List (String × AudioRecord)) }
    let keys := cleared.audioObjectUrls.map (fun p => p.1)
    (keys.foldl (fun st k => revokeAudioObjectUrl k st) cleared, [])
  else (s, [])

/-- A status listener for the event-bus model: an identity (JavaScript
`Set` membership is object identity) and a reaction that either returns
or throws. -/
structure ListenerSpec where
  id : Nat
  reaction : OfflineStatusDetail → Except String Unit

/-- `subscribeOfflineStatus(listener)`: `Set.add` keeps insertion order
and ignores an already-present element. -/
def subscribeOfflineStatus (ls : List ListenerSpec) (l : ListenerSpec) :
    List ListenerSpec :=
  if ls.any (fun x => x.id = l.id) then ls else ls ++ [l]

/-- The unsubscribe closure returned by `subscribeOfflineStatus`:
`Set.delete`. -/
def unsubscribeListener (ls : List ListenerSpec) (l : ListenerSpec) :
    List ListenerSpec :=
  ls.filter (fun x => x.id ≠ l.id)

/-- `emit(detail)`: invoke every listener in subscription order inside a
`try/catch`; the result pairs each listener identity with the caught
exception, if any.  The function is total: no listener exception reaches
the emitter. -/
def emit (ls : List ListenerSpec) (detail : OfflineStatusDetail) :
    List (Nat × Option String) :=
  ls.map (fun l =>
    match l.reaction detail with
    | Except.ok _ => (l.id, none)
    | Except.error e => (l.id, some e))

/-- Modelled from the spec: the cards-space record shape of the revision
that embeds collection membership alongside the snapshot.  The functions
`updateCachedCardCollections` and `getOfflineCardCollections` are
imported by `src/components/HskCategoryList.tsx` but their definitions
are not part of the provided `offlineCache.ts`. -/
structure CachedCardRecordM where
  card : Flashcard
  cachedAt : Nat
  audioStored : Bool
  collectionIds : List String
deriving DecidableEq

/-- Modelled from the spec: `updateCachedCardCollections(cardId,
collectionIds)` updates only the membership field of an already-cached
card record, leaving the rest of the snapshot untouched; it is a silent
no-op when the card is not cached. -/
def updateCachedCardCollections (cardId : String)
    (collectionIds : List String)
    (store : List (String × CachedCardRecordM)) :
    List (String × CachedCardRecordM) :=
  if (kvGet store cardId).isSome then
    store.map (fun p =>
      if p.1 = cardId then (p.1, { p.2 with collectionIds := collectionIds })
      else p)
  else store

/-- Modelled from the spec: `getOfflineCardCollections()` returns the
mapping from every cached card identity to its stored membership set. -/
def getOfflineCardCollections (store : List (String × CachedCardRecordM)) :
    List (String × List String) :=
  store.map (fun p => (p.1, p.2.collectionIds))

/-! Concrete fixtures used by the witness theorems. -/

/-- The empty module state: fresh database, no handles. -/
def emptyState : ModuleState :=
  { cards := [], audio := [], audioObjectUrls := [], revokedUrls := []
    nextUrlId := 0 }

/-- A sample card with a remote audio URL. -/
def card0 : Flashcard :=
  { id := "c1", polish := "dzien dobry", hanzi := "你好", pinyin := "ni hao"
    audio_url := some "https://x/a.mp3", comment := none, is_mastered := false
    created_at := "2024-01-01T00:00:00Z", hsk_reference_id := none }

/-- A sample card without an audio URL. -/
def cardNoAudio : Flashcard :=
  { card0 with id := "c2", audio_url := none }

/-- A sample audio payload. -/
def blob0 : Blob :=
  { bytes := [73, 68, 51], type := "audio/mpeg" }

/-- A fetch that always succeeds with `blob0`. -/
def fetchOk : String → FetchOutcome :=
  fun _ => FetchOutcome.success blob0

/-- A fetch that always fails. -/
def fetchFail : String → FetchOutcome :=
  fun _ => FetchOutcome.failure "network error"

/-- A previously stored audio record for `card0`. -/
def audioRec0 : AudioRecord :=
  { cardId := "c1", blob := blob0, cachedAt := 5, type := some "audio/mpeg" }

/-- A state holding a stale audio record and a live handle for `c1`. -/
def stateWithAudio : ModuleState :=
  { emptyState with
    audio := [("c1", audioRec0)]
    audioObjectUrls := [("c1", mkObjectUrl 0)]
    nextUrlId := 1 }

/-- A state holding a stored audio record for `c1` but no live handle. -/
def stateAudioOnly : ModuleState :=
  { emptyState with audio := [("c1", audioRec0)] }

/-- `card0` with its audio URL removed (same identity `c1`). -/
def cardNoAudioC1 : Flashcard :=
  { card0 with audio_url := none }

/-- A listener that always throws. -/
def listenerThrows : ListenerSpec :=
  { id := 1, reaction := fun _ => Except.error "boom" }

/-- A listener that always returns. -/
def listenerOk : ListenerSpec :=
  { id := 2, reaction := fun _ => Except.ok () }

/-- A sample event payload. -/
def detail0 : OfflineStatusDetail :=
  { cardId := "c1", cached := true, audioStored := true }

/-- Cached record with membership, for the collections model. -/
def cachedM0 : CachedCardRecordM :=
  { card := card0, cachedAt := 5, audioStored := true
    collectionIds := ["col-a"] }

/-! Association-list lemmas. -/

theorem kvGet_kvPut_self {α : Type} (l : List (String × α)) (k : String)
    (v : α) : kvGet (kvPut l k v) k = some v := by
  have h1 : (l.filter (fun p => p.1 ≠ k)).find? (fun p => p.1 = k) = none := by
    rw [List.find?_eq_none]
    intro x hx
    rw [List.mem_filter] at hx
    simpa using hx.2
  simp [kvGet, kvPut, List.find?_append, h1]

theorem find?_filter_ne {α : Type} (l : List (String × α)) (k k' : String)
    (h : k' ≠ k) :
    (l.filter (fun p => p.1 ≠ k)).find? (fun p => p.1 = k')
      = l.find? (fun p => p.1 = k') := by
  induction l with
  | nil => rfl
  | cons p t ih =>
      by_cases hp : p.1 = k
      · rw [List.filter_cons_of_neg (by simp [hp]),
            List.find?_cons_of_neg _ (by simp [hp, Ne.symm h]), ih]
      · rw [List.filter_cons_of_pos (by simp [hp])]
        by_cases hq : p.1 = k'
        · rw [List.find?_cons_of_pos _ (by simp [hq]),
              List.find?_cons_of_pos _ (by simp [hq])]
        · rw [List.find?_cons_of_neg _ (by simp [hq]),
              List.find?_cons_of_neg _ (by simp [hq]), ih]

theorem kvGet_kvPut_ne {α : Type} (l : List (String × α)) (k k' : String)
    (v : α) (h : k' ≠ k) : kvGet (kvPut l k v) k' = kvGet l k' := by
  have h2 : List.find? (fun p => p.1 = k') [(k, v)] = none := by
    rw [List.find?_eq_none]
    intro x hx
    rw [List.mem_singleton] at hx
    subst hx
    simpa using Ne.symm h
  simp only [kvGet, kvPut, List.find?_append, find?_filter_ne l k k' h, h2]
  cases l.find? (fun p => p.1 = k') <;> rfl

theorem kvGet_kvDelete_self {α : Type} (l : List (String × α)) (k : String) :
    kvGet (kvDelete l k) k = none := by
  simp only [kvGet, kvDelete]
  have h1 : (l.filter (fun p => p.1 ≠ k)).find? (fun p => p.1 = k) = none := by
    rw [List.find?_eq_none]
    intro x hx
    rw [List.mem_filter] at hx
    simpa using hx.2
  rw [h1]
  rfl

theorem kvDelete_idem {α : Type} (l : List (String × α)) (k : String) :
    kvDelete (kvDelete l k) k = kvDelete l k := by
  simp [kvDelete, List.filter_filter]

/-! Frame lemmas for `revokeAudioObjectUrl`. -/

theorem revoke_cards (cid : String) (s : ModuleState) :
    (revokeAudioObjectUrl cid s).cards = s.cards := by
  unfold revokeAudioObjectUrl
  cases h : kvGet s.audioObjectUrls cid with
  | none => rfl
  | some u => by_cases hu : u = "" <;> simp [hu]

theorem revoke_audio (cid : String) (s : ModuleState) :
    (revokeAudioObjectUrl cid s).audio = s.audio := by
  unfold revokeAudioObjectUrl
  cases h : kvGet s.audioObjectUrls cid with
  | none => rfl
  | some u => by_cases hu : u = "" <;> simp [hu]

/-- C1: for every card C, after a `cacheCardOffline` call for C resolves
successfully, `getOfflineCard` on the identity of C returns a snapshot
equal to C. -/
theorem C1_cache_then_get_roundtrip (fetchFn : String → FetchOutcome)
    (now : Nat) (card : Flashcard) (s s' : ModuleState)
    (evs : List OfflineStatusDetail) (r : OfflineStatusDetail)
    (h : cacheCardOffline true fetchFn now card s = Except.ok (s', evs, r)) :
    getOfflineCard true card.id s' = some card := by
  have hs : s' = runActions (cacheCardSteps fetchFn now card) s := by
    simp [cacheCardOffline] at h
    exact h.1.symm
  subst hs
  unfold cacheCardSteps
  by_cases ht : truthyStr card.audio_url
  · rw [if_pos ht]
    cases hf : fetchFn (card.audio_url.getD "") with
    | success blob =>
        simp [runActions, List.foldl, applyAction, getOfflineCard,
          revoke_cards, kvGet_kvPut_self]
    | failure msg =>
        simp [runActions, List.foldl, applyAction, getOfflineCard,
          revoke_cards, kvGet_kvPut_self]
  · rw [if_neg ht]
    simp [runActions, List.foldl, applyAction, getOfflineCard,
      revoke_cards, kvGet_kvPut_self]

/-- Witness for C1 at a concrete input: caching `card0` with a
successful fetch at time 7 from the empty state, then reading it back. -/
theorem C1_witness :
    getOfflineCard true card0.id
      { cards := [("c1", { card := card0, cachedAt := 7, audioStored := true })]
        audio := [("c1",
          { cardId := "c1", blob := blob0, cachedAt := 7
            type := some "audio/mpeg" })]
        audioObjectUrls := [], revokedUrls := [], nextUrlId := 0 }
      = some card0 :=
  C1_cache_then_get_roundtrip fetchOk 7 card0 emptyState _ _ _ rfl

/-- C2 counterexample: in a non-browser context `cacheCardOffline`
throws a capability error instead of returning an empty or falsy result,
and `getPlayableAudioUrl` returns the supplied (truthy) fallback URL. -/
theorem C2_counterexample :
    cacheCardOffline false fetchFail 0 card0 emptyState
      = Except.error "Caching offline is only available in the browser."
    ∧ getPlayableAudioUrl false "c1" (some "https://x/a.mp3") emptyState
      = (emptyState, some "https://x/a.mp3") :=
  ⟨rfl, rfl⟩

/-- C2 (amended): in a non-browser context, `removeCardFromOffline`,
`getOfflineCard`, `getAllOfflineCards`, `getOfflineStatusSnapshot`,
`isCardCached` and `clearOfflineCache` return empty or falsy results and
leave the state unchanged without throwing, `getPlayableAudioUrl`
returns the supplied fallback (null when absent) without throwing, and
`cacheCardOffline` is the exception: it throws a capability-unavailable
error. -/
theorem C2_non_browser_behaviour (cardId : String) (fb : Option String)
    (s : ModuleState) (fetchFn : String → FetchOutcome) (now : Nat)
    (card : Flashcard) :
    removeCardFromOffline false cardId s = (s, [])
    ∧ getOfflineCard false cardId s = none
    ∧ getAllOfflineCards false s = []
    ∧ getOfflineStatusSnapshot false s = []
    ∧ isCardCached false cardId s = false
    ∧ getPlayableAudioUrl false cardId fb s = (s, fb)
    ∧ clearOfflineCache false s = (s, [])
    ∧ cacheCardOffline false fetchFn now card s
        = Except.error "Caching offline is only available in the browser." :=
  ⟨rfl, rfl, rfl, rfl, rfl, rfl, rfl, rfl⟩

/-- C3 counterexample: re-caching `card0` while its audio fetch fails
leaves the previously stored audio record for `c1` in the audio space --
the claim that the stale audio record is removed is false.  The full
resulting state is computed explicitly: the audio space still holds
`audioRec0`. -/
theorem C3_counterexample :
    cacheCardOffline true fetchFail 9 card0 stateWithAudio
      = Except.ok
          ({ cards := [("c1",
               { card := card0, cachedAt := 9, audioStored := false })]
             audio := [("c1", audioRec0)]
             audioObjectUrls := []
             revokedUrls := [mkObjectUrl 0]
             nextUrlId := 1 },
           [{ cardId := "c1", cached := true, audioStored := false }],
           { cardId := "c1", cached := true, audioStored := false }) :=
  rfl

/-- C3 (amended): for every card with a truthy audio URL whose fetch
fails, `cacheCardOffline` still stores the card record with
`audioStored = false`, reports `audioStored = false` in both the emitted
event and the returned result, and leaves the audio space unchanged: a
previously stored audio record is kept, not removed (removal happens
only when the card has no audio URL). -/
theorem C3_fetch_failure_keeps_card_and_audio
    (fetchFn : String → FetchOutcome) (now : Nat) (card : Flashcard)
    (s : ModuleState) (msg : String)
    (h1 : truthyStr card.audio_url = true)
    (h2 : fetchFn (card.audio_url.getD "") = FetchOutcome.failure msg) :
    ∃ s',
      cacheCardOffline true fetchFn now card s
        = Except.ok (s',
            [{ cardId := card.id, cached := true, audioStored := false }],
            { cardId := card.id, cached := true, audioStored := false })
      ∧ kvGet s'.cards card.id
          = some { card := card, cachedAt := now, audioStored := false }
      ∧ s'.audio = s.audio := by
  refine ⟨runActions (cacheCardSteps fetchFn now card) s, ?_, ?_, ?_⟩
  · simp [cacheCardOffline, cacheCardSteps, cacheAudioStored, emittedOf,
      h1, h2]
  · simp [cacheCardSteps, h1, h2, runActions, List.foldl, applyAction,
      revoke_cards, kvGet_kvPut_self]
  · simp [cacheCardSteps, h1, h2, runActions, List.foldl, applyAction,
      revoke_audio]

/-- Witness for C3 at a concrete input: re-caching `card0` from
`stateWithAudio` at time 9 while the fetch fails. -/
theorem C3_witness :
    ∃ s',
      cacheCardOffline true fetchFail 9 card0 stateWithAudio
        = Except.ok (s',
            [{ cardId := card0.id, cached := true, audioStored := false }],
            { cardId := card0.id, cached := true, audioStored := false })
      ∧ kvGet s'.cards card0.id
          = some { card := card0, cachedAt := 9, audioStored := false }
      ∧ s'.audio = stateWithAudio.audio :=
  C3_fetch_failure_keeps_card_and_audio fetchFail 9 card0 stateWithAudio
    "network error" (by decide) rfl

/-! Helper lemmas for `removeCardFromOffline` and the status snapshot. -/

theorem revoke_of_get_none (cid : String) (t : ModuleState)
    (ht : kvGet t.audioObjectUrls cid = none) :
    revokeAudioObjectUrl cid t = t := by
  unfold revokeAudioObjectUrl
  rw [ht]

theorem revoke_idem (cid : String) (s : ModuleState) :
    revokeAudioObjectUrl cid (revokeAudioObjectUrl cid s)
      = revokeAudioObjectUrl cid s := by
  cases h : kvGet s.audioObjectUrls cid with
  | none => rw [revoke_of_get_none cid s h, revoke_of_get_none cid s h]
  | some u =>
      by_cases hu : u = ""
      · have he : revokeAudioObjectUrl cid s = s := by
          unfold revokeAudioObjectUrl
          rw [h]
          simp [hu]
        rw [he, he]
      · have he : revokeAudioObjectUrl cid s
            = { s with revokedUrls := s.revokedUrls ++ [u]
                       audioObjectUrls := kvDelete s.audioObjectUrls cid } := by
          unfold revokeAudioObjectUrl
          rw [h]
          simp [hu]
        rw [he]
        apply revoke_of_get_none
        exact kvGet_kvDelete_self s.audioObjectUrls cid

theorem revoke_update_comm (cid : String) (s : ModuleState)
    (X : List (String × CardRecord)) (Y : List (String × AudioRecord)) :
    revokeAudioObjectUrl cid { s with cards := X, audio := Y }
      = { revokeAudioObjectUrl cid s with cards := X, audio := Y } := by
  unfold revokeAudioObjectUrl
  cases h : kvGet s.audioObjectUrls cid with
  | none => simp [h]
  | some u => by_cases hu : u = "" <;> simp [h, hu]

theorem remove_state_eq (id : String) (s : ModuleState) :
    (removeCardFromOffline true id s).1
      = revokeAudioObjectUrl id
          { s with cards := kvDelete s.cards id
                   audio := kvDelete s.audio id } := by
  simp [removeCardFromOffline, removeSteps, runActions, List.foldl,
    applyAction]

theorem kvGet_recordSet_none (acc : List (String × Bool)) (k id : String)
    (v : Bool) (hne : k ≠ id) (h : kvGet acc id = none) :
    kvGet (recordSet acc k v) id = none := by
  rw [kvGet, Option.map_eq_none'] at h ⊢
  rw [List.find?_eq_none] at h ⊢
  unfold recordSet
  split
  · intro x hx
    rw [List.mem_map] at hx
    obtain ⟨q, hq, hfq⟩ := hx
    by_cases hqk : q.1 = k
    · rw [if_pos hqk] at hfq
      subst hfq
      simpa using hne
    · rw [if_neg hqk] at hfq
      subst hfq
      exact h q hq
  · intro x hx
    rw [List.mem_append] at hx
    cases hx with
    | inl hx => exact h x hx
    | inr hx =>
        rw [List.mem_singleton] at hx
        subst hx
        simpa using hne

theorem snapshot_fold_no_key (entries : List (String × CardRecord))
    (acc : List (String × Bool)) (id : String)
    (hacc : kvGet acc id = none)
    (hent : ∀ p ∈ entries, p.2.card.id ≠ id) :
    kvGet
      (entries.foldl
        (fun a p => recordSet a p.2.card.id p.2.audioStored) acc) id
      = none := by
  induction entries generalizing acc with
  | nil => exact hacc
  | cons p t ih =>
      rw [List.foldl_cons]
      apply ih
      · exact kvGet_recordSet_none acc p.2.card.id id p.2.audioStored
          (hent p (List.mem_cons_self p t)) hacc
      · intro q hq
        exact hent q (List.mem_cons_of_mem p hq)

/-- C4: `removeCardFromOffline(id)` deletes both the card and audio
records for `id` and emits the event with `cached = false` and
`audioStored = false`; afterwards `getOfflineCard(id)` is not found and
the status snapshot has no entry for `id`; a second call produces the
same final state and emits the same event.  The hypothesis is the
reachable-state invariant that every cards-space record is keyed by the
identity of the stored card (true of every record written by
`cacheCardOffline`). -/
theorem C4_remove_deletes_and_is_idempotent (id : String)
    (s : ModuleState) (hwk : ∀ p ∈ s.cards, p.2.card.id = p.1) :
    (removeCardFromOffline true id s).2
        = [{ cardId := id, cached := false, audioStored := false }]
    ∧ kvGet (removeCardFromOffline true id s).1.cards id = none
    ∧ kvGet (removeCardFromOffline true id s).1.audio id = none
    ∧ getOfflineCard true id (removeCardFromOffline true id s).1 = none
    ∧ kvGet
        (getOfflineStatusSnapshot true (removeCardFromOffline true id s).1)
        id = none
    ∧ removeCardFromOffline true id (removeCardFromOffline true id s).1
        = ((removeCardFromOffline true id s).1,
           [{ cardId := id, cached := false, audioStored := false }]) := by
  have hcards : (removeCardFromOffline true id s).1.cards
      = kvDelete s.cards id := by
    rw [remove_state_eq, revoke_cards]
  have haudio : (removeCardFromOffline true id s).1.audio
      = kvDelete s.audio id := by
    rw [remove_state_eq, revoke_audio]
  refine ⟨rfl, ?_, ?_, ?_, ?_, ?_⟩
  · rw [hcards]
    exact kvGet_kvDelete_self s.cards id
  · rw [haudio]
    exact kvGet_kvDelete_self s.audio id
  · rw [getOfflineCard, if_pos rfl, hcards, kvGet_kvDelete_self]
    rfl
  · rw [getOfflineStatusSnapshot, if_pos rfl, hcards]
    apply snapshot_fold_no_key
    · rfl
    · intro p hp
      rw [kvDelete, List.mem_filter] at hp
      rw [hwk p hp.1]
      simpa using hp.2
  · have hstep : removeCardFromOffline true id
        (removeCardFromOffline true id s).1
        = (revokeAudioObjectUrl id
            { (removeCardFromOffline true id s).1 with
                cards := kvDelete (removeCardFromOffline true id s).1.cards id
                audio := kvDelete (removeCardFromOffline true id s).1.audio id },
           [{ cardId := id, cached := false, audioStored := false }]) := by
      rw [removeCardFromOffline]
      simp only [if_pos]
      rw [remove_state_eq]
      rfl
    rw [hstep, hcards, haudio, kvDelete_idem, kvDelete_idem,
      ← hcards, ← haudio]
    have hcollapse :
        { (removeCardFromOffline true id s).1 with
            cards := (removeCardFromOffline true id s).1.cards
            audio := (removeCardFromOffline true id s).1.audio }
          = (removeCardFromOffline true id s).1 := rfl
    rw [hcollapse, remove_state_eq, revoke_idem]

/-- Witness for C4 at a concrete input: removing `c1` from the state
holding a cached audio record and a live handle for it. -/
theorem C4_witness :
    (removeCardFromOffline true "c1" stateWithAudio).2
        = [{ cardId := "c1", cached := false, audioStored := false }]
    ∧ kvGet (removeCardFromOffline true "c1" stateWithAudio).1.cards "c1"
        = none
    ∧ kvGet (removeCardFromOffline true "c1" stateWithAudio).1.audio "c1"
        = none
    ∧ getOfflineCard true "c1" (removeCardFromOffline true "c1" stateWithAudio).1
        = none
    ∧ kvGet
        (getOfflineStatusSnapshot true
          (removeCardFromOffline true "c1" stateWithAudio).1) "c1" = none
    ∧ removeCardFromOffline true "c1"
          (removeCardFromOffline true "c1" stateWithAudio).1
        = ((removeCardFromOffline true "c1" stateWithAudio).1,
           [{ cardId := "c1", cached := false, audioStored := false }]) :=
  C4_remove_deletes_and_is_idempotent "c1" stateWithAudio (by decide)

/-- C5: `getPlayableAudioUrl` follows the strict priority order: in a
non-browser context it returns the fallback (null when absent)
immediately with the state unchanged; otherwise an already-created
in-memory handle wins; otherwise a stored audio record yields a freshly
created handle that is cached in the handle map for reuse; otherwise the
supplied fallback (null when absent) is returned. -/
theorem C5_playable_url_priority (cardId : String) (fb : Option String)
    (s : ModuleState) :
    getPlayableAudioUrl false cardId fb s = (s, fb)
    ∧ (∀ u, kvGet s.audioObjectUrls cardId = some u →
        getPlayableAudioUrl true cardId fb s = (s, some u))
    ∧ (∀ rec : AudioRecord, kvGet s.audioObjectUrls cardId = none →
        kvGet s.audio cardId = some rec →
        getPlayableAudioUrl true cardId fb s
          = ({ s with
                audioObjectUrls :=
                  kvPut s.audioObjectUrls cardId (mkObjectUrl s.nextUrlId)
                nextUrlId := s.nextUrlId + 1 },
             some (mkObjectUrl s.nextUrlId))
        ∧ kvGet (getPlayableAudioUrl true cardId fb s).1.audioObjectUrls
            cardId = some (mkObjectUrl s.nextUrlId))
    ∧ (kvGet s.audioObjectUrls cardId = none →
        kvGet s.audio cardId = none →
        getPlayableAudioUrl true cardId fb s = (s, fb)) := by
  refine ⟨rfl, ?_, ?_, ?_⟩
  · intro u hu
    simp [getPlayableAudioUrl, hu]
  · intro rec h1 h2
    constructor
    · simp [getPlayableAudioUrl, h1, h2]
    · simp [getPlayableAudioUrl, h1, h2, kvGet_kvPut_self]
  · intro h1 h2
    simp [getPlayableAudioUrl, h1, h2]

/-- Witness for C5 at a concrete input: no handle exists for `c1` but an
audio record does, so a fresh handle is created, returned and cached. -/
theorem C5_witness :
    getPlayableAudioUrl true "c1" (some "https://x/a.mp3") stateAudioOnly
      = ({ stateAudioOnly with
            audioObjectUrls :=
              kvPut stateAudioOnly.audioObjectUrls "c1"
                (mkObjectUrl stateAudioOnly.nextUrlId)
            nextUrlId := stateAudioOnly.nextUrlId + 1 },
         some (mkObjectUrl stateAudioOnly.nextUrlId))
    ∧ kvGet
        (getPlayableAudioUrl true "c1" (some "https://x/a.mp3")
          stateAudioOnly).1.audioObjectUrls "c1"
        = some (mkObjectUrl stateAudioOnly.nextUrlId) :=
  (C5_playable_url_priority "c1" (some "https://x/a.mp3")
    stateAudioOnly).2.2.1 audioRec0 rfl rfl

/-- C6: within one browser-side `cacheCardOffline` call the step
sequence decomposes as an audio phase (fetch, audio-space writes and
deletes, logging only), then the card-record write, then invalidation of
the in-memory handle, then the event emission as the very last step; and
replaying everything before the emission from any start state yields a
state in which the card record is committed, and the audio record is
present whenever the emitted `audioStored` flag is true. -/
theorem C6_order_and_commit (fetchFn : String → FetchOutcome) (now : Nat)
    (card : Flashcard) :
    ∃ pre r,
      cacheCardSteps fetchFn now card
        = pre ++ [Action.putCard card.id r, Action.revokeHandle card.id,
            Action.emitEvent
              { cardId := card.id, cached := true
                audioStored := r.audioStored }]
      ∧ (∀ a ∈ pre, isAudioPhase a = true)
      ∧ r = { card := card, cachedAt := now
              audioStored := cacheAudioStored fetchFn card }
      ∧ ∀ s : ModuleState,
          kvGet
            (runActions (pre ++ [Action.putCard card.id r,
              Action.revokeHandle card.id]) s).cards card.id = some r
          ∧ (r.audioStored = true →
              (kvGet (runActions (pre ++ [Action.putCard card.id r,
                Action.revokeHandle card.id]) s).audio card.id).isSome
                = true) := by
  by_cases ht : truthyStr card.audio_url
  · cases hf : fetchFn (card.audio_url.getD "") with
    | success blob =>
        refine ⟨[Action.fetchAudio (card.audio_url.getD "")
            (FetchOutcome.success blob),
          Action.putAudio card.id
            { cardId := card.id, blob := blob, cachedAt := now
              type := if blob.type = "" then none else some blob.type }],
          { card := card, cachedAt := now, audioStored := true },
          ?_, ?_, ?_, ?_⟩
        · simp [cacheCardSteps, ht, hf]
        · intro a ha
          simp only [List.mem_cons, List.not_mem_nil, or_false] at ha
          rcases ha with rfl | rfl <;> rfl
        · simp [cacheAudioStored, ht, hf]
        · intro s
          constructor
          · simp [runActions, List.foldl, applyAction, revoke_cards,
              kvGet_kvPut_self]
          · intro _
            simp [runActions, List.foldl, applyAction, revoke_audio,
              kvGet_kvPut_self, kvGet_kvPut_ne]
    | failure msg =>
        refine ⟨[Action.fetchAudio (card.audio_url.getD "")
            (FetchOutcome.failure msg),
          Action.logError "Failed to cache flashcard audio"],
          { card := card, cachedAt := now, audioStored := false },
          ?_, ?_, ?_, ?_⟩
        · simp [cacheCardSteps, ht, hf]
        · intro a ha
          simp only [List.mem_cons, List.not_mem_nil, or_false] at ha
          rcases ha with rfl | rfl <;> rfl
        · simp [cacheAudioStored, ht, hf]
        · intro s
          refine ⟨?_, by simp⟩
          simp [runActions, List.foldl, applyAction, revoke_cards,
            kvGet_kvPut_self]
  · refine ⟨[Action.deleteAudio card.id],
      { card := card, cachedAt := now, audioStored := false },
      ?_, ?_, ?_, ?_⟩
    · simp [cacheCardSteps, ht]
    · intro a ha
      simp only [List.mem_singleton] at ha
      subst ha
      rfl
    · simp [cacheAudioStored, ht]
    · intro s
      refine ⟨?_, by simp⟩
      simp [runActions, List.foldl, applyAction, revoke_cards,
        kvGet_kvPut_self]

/-- Witness for C6 at a concrete input: the decomposition of the step
sequence of caching `card0` with a successful fetch at time 7. -/
theorem C6_witness :
    ∃ pre r,
      cacheCardSteps fetchOk 7 card0
        = pre ++ [Action.putCard card0.id r, Action.revokeHandle card0.id,
            Action.emitEvent
              { cardId := card0.id, cached := true
                audioStored := r.audioStored }]
      ∧ (∀ a ∈ pre, isAudioPhase a = true)
      ∧ r = { card := card0, cachedAt := 7
              audioStored := cacheAudioStored fetchOk card0 }
      ∧ ∀ s : ModuleState,
          kvGet
            (runActions (pre ++ [Action.putCard card0.id r,
              Action.revokeHandle card0.id]) s).cards card0.id = some r
          ∧ (r.audioStored = true →
              (kvGet (runActions (pre ++ [Action.putCard card0.id r,
                Action.revokeHandle card0.id]) s).audio card0.id).isSome
                = true) :=
  C6_order_and_commit fetchOk 7 card0

/-- C7: `emit` invokes every subscribed listener exactly once, in
subscription order, within the emitting call; a listener exception is
caught and recorded while the remaining listeners still run, and `emit`
is a total function so no exception reaches the emitter; after
unsubscribing, a listener identity never appears in the invocation
record of a subsequent `emit`. -/
theorem C7_emit_order_isolation_unsubscribe (ls : List ListenerSpec)
    (d : OfflineStatusDetail) (x : ListenerSpec) :
    (emit ls d).map Prod.fst = ls.map (fun l => l.id)
    ∧ (∀ l ∈ ls, ∀ e, l.reaction d = Except.error e →
        (l.id, some e) ∈ emit ls d)
    ∧ ∀ p ∈ emit (unsubscribeListener ls x) d, p.1 ≠ x.id := by
  refine ⟨?_, ?_, ?_⟩
  · rw [emit, List.map_map]
    apply List.map_congr_left
    intro l _
    cases hr : l.reaction d <;> simp [hr]
  · intro l hl e he
    rw [emit, List.mem_map]
    exact ⟨l, hl, by rw [he]⟩
  · intro p hp
    rw [emit, List.mem_map] at hp
    obtain ⟨q, hq, hfq⟩ := hp
    rw [unsubscribeListener, List.mem_filter] at hq
    have hid : p.1 = q.id := by
      cases hr : q.reaction d <;> rw [hr] at hfq <;> subst hfq <;> rfl
    rw [hid]
    simpa using hq.2

/-- Witness for C7 at a concrete input: two subscribed listeners, the
first of which throws; both are invoked in order, the exception is
recorded, and after unsubscribing the first listener its identity no
longer appears in the invocation record. -/
theorem C7_witness :
    (emit [listenerThrows, listenerOk] detail0).map Prod.fst = [1, 2]
    ∧ (1, some "boom") ∈ emit [listenerThrows, listenerOk] detail0
    ∧ ∀ p ∈ emit
        (unsubscribeListener [listenerThrows, listenerOk] listenerThrows)
        detail0, p.1 ≠ 1 := by
  have h := C7_emit_order_isolation_unsubscribe
    [listenerThrows, listenerOk] detail0 listenerThrows
  exact ⟨h.1, h.2.1 listenerThrows (List.mem_cons_self _ _) "boom" rfl,
    h.2.2⟩

/-! Helper lemma for C8: after invalidation the handle map has no entry
for the identity, provided every stored handle is a truthy string (which
is an invariant of the module: handles come from `URL.createObjectURL`). -/

theorem kvGet_revoke_self (cid : String) (s : ModuleState)
    (hwf : ∀ p ∈ s.audioObjectUrls, p.2 ≠ "") :
    kvGet (revokeAudioObjectUrl cid s).audioObjectUrls cid = none := by
  cases h : kvGet s.audioObjectUrls cid with
  | none =>
      rw [revoke_of_get_none cid s h]
      exact h
  | some u =>
      have h' := h
      rw [kvGet] at h'
      rw [Option.map_eq_some'] at h'
      obtain ⟨pair, hfind, h2⟩ := h'
      have hu : u ≠ "" := h2 ▸ hwf pair (List.mem_of_find?_eq_some hfind)
      unfold revokeAudioObjectUrl
      rw [h]
      simp [hu, kvGet_kvDelete_self]

/-- C8: for every card whose audio URL is absent, `cacheCardOffline`
deletes any previously stored audio record for its identity, and a
subsequent `getPlayableAudioUrl(id, null)` returns null with the state
unchanged (no handle, no stored blob, no fallback).  The second
hypothesis is the module invariant that stored handles are non-empty
strings. -/
theorem C8_no_audio_url_deletes_audio (fetchFn : String → FetchOutcome)
    (now : Nat) (card : Flashcard) (s : ModuleState)
    (hurl : card.audio_url = none)
    (hwf : ∀ p ∈ s.audioObjectUrls, p.2 ≠ "") :
    ∃ s',
      cacheCardOffline true fetchFn now card s
        = Except.ok (s',
            [{ cardId := card.id, cached := true, audioStored := false }],
            { cardId := card.id, cached := true, audioStored := false })
      ∧ kvGet s'.audio card.id = none
      ∧ getPlayableAudioUrl true card.id none s' = (s', none) := by
  have ht : truthyStr card.audio_url = false := by rw [hurl]; rfl
  refine ⟨runActions (cacheCardSteps fetchFn now card) s, ?_, ?_, ?_⟩
  · simp [cacheCardOffline, cacheCardSteps, cacheAudioStored, emittedOf,
      ht]
  · simp [cacheCardSteps, ht, runActions, List.foldl, applyAction,
      revoke_audio, kvGet_kvDelete_self]
  · have haud : kvGet
        (runActions (cacheCardSteps fetchFn now card) s).audio card.id
        = none := by
      simp [cacheCardSteps, ht, runActions, List.foldl, applyAction,
        revoke_audio, kvGet_kvDelete_self]
    have hmap : kvGet
        (runActions (cacheCardSteps fetchFn now card) s).audioObjectUrls
        card.id = none := by
      simp only [cacheCardSteps, ht, if_false, Bool.false_eq_true,
        runActions, List.foldl, applyAction]
      exact kvGet_revoke_self card.id _ hwf
    simp [getPlayableAudioUrl, hmap, haud]

/-- Witness for C8 at a concrete input: caching the audio-less `c1` card
from the state holding a stale audio record and a live handle for `c1`. -/
theorem C8_witness :
    ∃ s',
      cacheCardOffline true fetchOk 11 cardNoAudioC1 stateWithAudio
        = Except.ok (s',
            [{ cardId := cardNoAudioC1.id, cached := true
               audioStored := false }],
            { cardId := cardNoAudioC1.id, cached := true
              audioStored := false })
      ∧ kvGet s'.audio cardNoAudioC1.id = none
      ∧ getPlayableAudioUrl true cardNoAudioC1.id none s' = (s', none) :=
  C8_no_audio_url_deletes_audio fetchOk 11 cardNoAudioC1 stateWithAudio
    rfl (by decide)

/-! Helper lemmas for the collections model (C9). -/

theorem kvGet_map_shape_none {α β : Type} (l : List (String × α))
    (f : String × α → β) (k : String) (h : kvGet l k = none) :
    kvGet (l.map (fun p => (p.1, f p))) k = none := by
  rw [kvGet, Option.map_eq_none'] at h ⊢
  rw [List.find?_eq_none] at h ⊢
  intro x hx
  rw [List.mem_map] at hx
  obtain ⟨q, hq, hfq⟩ := hx
  subst hfq
  exact h q hq

theorem kvGet_mapUpdate_self (store : List (String × CachedCardRecordM))
    (cardId : String) (cids : List String) (r : CachedCardRecordM)
    (h : kvGet store cardId = some r) :
    kvGet (store.map (fun p =>
        if p.1 = cardId then (p.1, { p.2 with collectionIds := cids })
        else p)) cardId
      = some { r with collectionIds := cids } := by
  induction store with
  | nil => simp [kvGet] at h
  | cons p t ih =>
      by_cases hp : p.1 = cardId
      · have hr : p.2 = r := by
          rw [kvGet, List.find?_cons_of_pos _ (by simp [hp])] at h
          simpa using h
        rw [List.map_cons, if_pos hp, kvGet,
          List.find?_cons_of_pos _ (by simp [hp])]
        rw [hr]
        rfl
      · have ht : kvGet t cardId = some r := by
          rw [kvGet, List.find?_cons_of_neg _ (by simp [hp])] at h
          exact h
        rw [List.map_cons, if_neg hp, kvGet,
          List.find?_cons_of_neg _ (by simp [hp])]
        exact ih ht

theorem kvGet_mapUpdate_frame (store : List (String × CachedCardRecordM))
    (cardId : String) (cids : List String) (k : String)
    (hk : k ≠ cardId) :
    kvGet (store.map (fun p =>
        if p.1 = cardId then (p.1, { p.2 with collectionIds := cids })
        else p)) k
      = kvGet store k := by
  induction store with
  | nil => rfl
  | cons p t ih =>
      by_cases hp : p.1 = cardId
      · have hpk : ¬(p.1 = k) := by
          rw [hp]
          exact fun hc => hk hc.symm
        rw [List.map_cons, if_pos hp, kvGet,
          List.find?_cons_of_neg _ (by simp [hpk]), kvGet,
          List.find?_cons_of_neg _ (by simp [hpk])]
        exact ih
      · by_cases hq : p.1 = k
        · rw [List.map_cons, if_neg hp, kvGet,
            List.find?_cons_of_pos _ (by simp [hq]), kvGet,
            List.find?_cons_of_pos _ (by simp [hq])]
        · rw [List.map_cons, if_neg hp, kvGet,
            List.find?_cons_of_neg _ (by simp [hq]), kvGet,
            List.find?_cons_of_neg _ (by simp [hq])]
          exact ih

/-- C9: `updateCachedCardCollections(cardId, collectionIds)` is a silent
no-op on an uncached identity, leaving `getOfflineCardCollections`
without an entry for it; on a cached identity it replaces only the
membership field of the stored record (every other field of the snapshot
and every other entry of the store are unchanged). -/
theorem C9_update_collections_only_membership (cardId : String)
    (cids : List String) (store : List (String × CachedCardRecordM)) :
    (kvGet store cardId = none →
      updateCachedCardCollections cardId cids store = store
      ∧ kvGet
          (getOfflineCardCollections
            (updateCachedCardCollections cardId cids store)) cardId
          = none)
    ∧ (∀ r, kvGet store cardId = some r →
        kvGet (updateCachedCardCollections cardId cids store) cardId
          = some { r with collectionIds := cids })
    ∧ (∀ k, k ≠ cardId →
        kvGet (updateCachedCardCollections cardId cids store) k
          = kvGet store k) := by
  refine ⟨?_, ?_, ?_⟩
  · intro h
    have hnoop : updateCachedCardCollections cardId cids store = store := by
      rw [updateCachedCardCollections, h]
      rfl
    refine ⟨hnoop, ?_⟩
    rw [hnoop]
    exact kvGet_map_shape_none store (fun p => p.2.collectionIds) cardId h
  · intro r h
    rw [updateCachedCardCollections, h]
    exact kvGet_mapUpdate_self store cardId cids r h
  · intro k hk
    rw [updateCachedCardCollections]
    by_cases h : (kvGet store cardId).isSome
    · rw [if_pos h]
      exact kvGet_mapUpdate_frame store cardId cids k hk
    · rw [if_neg h]

/-- Witness for C9 at concrete inputs: updating the uncached identity
`c2` is a no-op with no resulting membership entry, and updating the
cached identity `c1` replaces only its membership field. -/
theorem C9_witness :
    (updateCachedCardCollections "c2" ["col-b"] [("c1", cachedM0)]
        = [("c1", cachedM0)]
      ∧ kvGet
          (getOfflineCardCollections
            (updateCachedCardCollections "c2" ["col-b"] [("c1", cachedM0)]))
          "c2" = none)
    ∧ kvGet
        (updateCachedCardCollections "c1" ["col-b"] [("c1", cachedM0)])
        "c1" = some { cachedM0 with collectionIds := ["col-b"] } :=
  ⟨(C9_update_collections_only_membership "c2" ["col-b"]
      [("c1", cachedM0)]).1 rfl,
   (C9_update_collections_only_membership "c1" ["col-b"]
      [("c1", cachedM0)]).2.1 cachedM0 rfl⟩

/-! Helper lemma for C10: folding the revocation over the keys of the
handle map empties the map, revokes exactly the stored URLs, and leaves
the record spaces untouched. -/

theorem revoke_fold_clears (m : List (String × String)) (s : ModuleState)
    (hm : s.audioObjectUrls = m) (hnd : (m.map Prod.fst).Nodup)
    (hwf : ∀ p ∈ m, p.2 ≠ "") :
    ((m.map Prod.fst).foldl
        (fun st k => revokeAudioObjectUrl k st) s).audioObjectUrls = []
    ∧ ((m.map Prod.fst).foldl
        (fun st k => revokeAudioObjectUrl k st) s).revokedUrls
        = s.revokedUrls ++ m.map Prod.snd
    ∧ ((m.map Prod.fst).foldl
        (fun st k => revokeAudioObjectUrl k st) s).cards = s.cards
    ∧ ((m.map Prod.fst).foldl
        (fun st k => revokeAudioObjectUrl k st) s).audio = s.audio := by
  induction m generalizing s with
  | nil => exact ⟨hm, by simp, rfl, rfl⟩
  | cons p t ih =>
      have hget : kvGet s.audioObjectUrls p.1 = some p.2 := by
        rw [hm, kvGet, List.find?_cons_of_pos _ (by simp)]
        rfl
      have hp2 : p.2 ≠ "" := hwf p (List.mem_cons_self p t)
      have hstep : revokeAudioObjectUrl p.1 s
          = { s with revokedUrls := s.revokedUrls ++ [p.2]
                     audioObjectUrls := kvDelete s.audioObjectUrls p.1 } := by
        unfold revokeAudioObjectUrl
        rw [hget]
        simp [hp2]
      have hdel : kvDelete s.audioObjectUrls p.1 = t := by
        rw [hm, kvDelete, List.filter_cons_of_neg (by simp)]
        apply List.filter_eq_self.mpr
        intro q hq
        have hne : q.1 ≠ p.1 := by
          rw [List.map_cons] at hnd
          have := (List.nodup_cons.mp hnd).1
          intro hc
          exact this (hc ▸ List.mem_map_of_mem Prod.fst hq)
        simpa using hne
      rw [List.map_cons, List.foldl_cons, hstep, hdel]
      have hih := ih
        { s with revokedUrls := s.revokedUrls ++ [p.2]
                 audioObjectUrls := t }
        rfl
        (by
          rw [List.map_cons] at hnd
          exact (List.nodup_cons.mp hnd).2)
        (fun q hq => hwf q (List.mem_cons_of_mem p hq))
      refine ⟨hih.1, ?_, hih.2.2.1, hih.2.2.2⟩
      rw [hih.2.1]
      simp

/-- C10: `clearOfflineCache()` empties the cards and audio spaces,
revokes every outstanding in-memory handle (the handle map ends empty
and exactly the stored URLs are released), and emits no status event.
The hypotheses are the module invariants on the handle map: keys are
distinct (it models a `Map`) and stored URLs are non-empty strings. -/
theorem C10_clear_revokes_all_no_event (s : ModuleState)
    (hnd : (s.audioObjectUrls.map Prod.fst).Nodup)
    (hwf : ∀ p ∈ s.audioObjectUrls, p.2 ≠ "") :
    (clearOfflineCache true s).2 = []
    ∧ (clearOfflineCache true s).1.cards = []
    ∧ (clearOfflineCache true s).1.audio = []
    ∧ (clearOfflineCache true s).1.audioObjectUrls = []
    ∧ (clearOfflineCache true s).1.revokedUrls
        = s.revokedUrls ++ s.audioObjectUrls.map Prod.snd := by
  have h := revoke_fold_clears s.audioObjectUrls
    { s with cards := ([] : List (String × CardRecord))
             audio := ([] : List (String × AudioRecord)) }
    rfl hnd hwf
  exact ⟨rfl, h.2.2.1, h.2.2.2, h.1, h.2.1⟩

/-- Witness for C10 at a concrete input: clearing the state that holds a
cached audio record and one live handle. -/
theorem C10_witness :
    (clearOfflineCache true stateWithAudio).2 = []
    ∧ (clearOfflineCache true stateWithAudio).1.cards = []
    ∧ (clearOfflineCache true stateWithAudio).1.audio = []
    ∧ (clearOfflineCache true stateWithAudio).1.audioObjectUrls = []
    ∧ (clearOfflineCache true stateWithAudio).1.revokedUrls
        = stateWithAudio.revokedUrls
            ++ stateWithAudio.audioObjectUrls.map Prod.snd :=
  C10_clear_revokes_all_no_event stateWithAudio (by decide) (by decide)

end OfflineCache
